import Mathlib

/-!
Verification development for the Flight-Award scraper
(src/scrape_united.py and src/auto_scraper.py).

The two scripts drive a browser session against a flight-search site and
reduce each rendered results page into a normalized record that is appended
to a CSV store.  The shallow embedding below models a settled, rendered page
as the outcome of the DOM queries the code performs (`Page`), the record the
code builds (`FlightRecord`, with a `CellVal` cell type covering Python int,
str and None values), and the pure data-reduction logic of both scripts.
Exception sites are made explicit through small `Fault` / exit enumerations,
mirroring where the try/except blocks of the source sit.
-/

namespace FlightAward

/-- Value stored in one cell of the result record: a Python int, a Python
str (sentinels such as BLOCKED, ERROR, N/A and parsed strings), or Python
None (written as an empty cell by the csv writer). -/
inductive CellVal where
  | num (n : Nat)
  | str (s : String)
  | null
deriving DecidableEq, Repr

/-- The normalized record both scripts build (a Python dict with the six
fixed keys used by the csv writer). -/
structure FlightRecord where
  origin : CellVal
  destination : CellVal
  date : CellVal
  flights_found : CellVal
  min_miles : CellVal
  scraped_at : CellVal
deriving DecidableEq, Repr

/-- A settled, rendered page, modelled by the results of the DOM queries the
code performs on it: the element list returned by each selector probe
(elements are represented by their text), plus the current navigation URL.

* `errorMessages`: elements matching the block-indicator XPATH
  (rate-limit / "Please try again later" phrases);
* `flightResultTier1/2/3`: the three result-candidate CSS selector tiers,
  probed in descending specificity;
* `milesTexts`: texts of the elements matching the price/mileage selectors;
* `noFlightsIndicators`: elements matching the no-availability XPATH. -/
structure Page where
  errorMessages : List String
  flightResultTier1 : List String
  flightResultTier2 : List String
  flightResultTier3 : List String
  milesTexts : List String
  noFlightsIndicators : List String
  url : String
deriving DecidableEq, Repr

/-- The selector cascade: take the first tier that matched any element
(scrape_united.py lines 76-84, auto_scraper.py lines 60-66). -/
def flightElements (p : Page) : List String :=
  if p.flightResultTier1 ≠ [] then p.flightResultTier1
  else if p.flightResultTier2 ≠ [] then p.flightResultTier2
  else p.flightResultTier3

/-- Price parsing for one element text: keep every digit character, and when
any digit remains parse the digit string as a decimal integer
(`numbers = ''.join(filter(lambda x: x.isdigit(), text))` followed by
`int(numbers)` when non-empty). -/
def parsePrice (text : String) : Option Nat :=
  let numbers := text.toList.filter Char.isDigit
  if numbers = [] then none
  else some (numbers.foldl (fun acc c => acc * 10 + (c.toNat - 48)) 0)

/-- The miles-price collection loop: one parsed value per element whose text
contains at least one digit, in element order. -/
def parsePrices (texts : List String) : List Nat :=
  texts.filterMap parsePrice

/-- Python `min` over the collected prices, `none` when the list is empty
(the code only calls `min` under `if miles_prices:`). -/
def listMin : List Nat → Option Nat
  | [] => none
  | n :: rest =>
    match listMin rest with
    | none => some n
    | some m => some (Nat.min n m)

/-- The record cell written for min_miles:
`min_miles if min_miles else 'N/A'` — a Python truthiness test, so both
`None` and the integer `0` fall through to the `'N/A'` sentinel. -/
def milesCell : Option Nat → CellVal
  | none => .str "N/A"
  | some m => if m = 0 then .str "N/A" else .num m

/-- Where (if anywhere) an unexpected exception is raised inside
`scrape_united_awards`:

* `outer`: outside the inner detail-extraction try (navigation or the
  block check) — handled by the except at lines 135-144;
* `innerBeforeResults` / `innerBeforePrices` / `innerBeforeNoFlights`:
  inside the inner try (lines 65-119), before the named step ran — handled
  by the except at lines 120-122, which keeps the values computed so far. -/
inductive Fault where
  | ok
  | outer
  | innerBeforeResults
  | innerBeforePrices
  | innerBeforeNoFlights
deriving DecidableEq, Repr

/-- `scrape_united_awards` (scrape_united.py lines 28-144), as a function of
the settled page, the fault site (if any) and the capture timestamp.
Control flow of the source: outer try; block check short-circuits with
BLOCKED/BLOCKED; inner try runs the cascade, the price loop and the
no-availability override, and its except keeps whatever was computed before
the fault; the outer except returns ERROR/ERROR. -/
def scrape_united_awards (origin destination date_str : String) (page : Page)
    (fault : Fault) (now : String) : FlightRecord :=
  if fault = .outer then
    ⟨.str origin, .str destination, .str date_str, .str "ERROR", .str "ERROR", .str now⟩
  else if page.errorMessages ≠ [] then
    ⟨.str origin, .str destination, .str date_str, .str "BLOCKED", .str "BLOCKED", .str now⟩
  else
    let fm : Nat × Option Nat :=
      if fault = .innerBeforeResults then (0, none)
      else
        let flights_found := (flightElements page).length
        if fault = .innerBeforePrices then (flights_found, none)
        else
          let min_miles := listMin (parsePrices page.milesTexts)
          if fault = .innerBeforeNoFlights then (flights_found, min_miles)
          else if page.noFlightsIndicators ≠ [] ∧ flights_found = 0 then (0, none)
          else (flights_found, min_miles)
    ⟨.str origin, .str destination, .str date_str, .num fm.1, milesCell fm.2, .str now⟩

/-- Python substring membership `pat in s`, over character lists. -/
def hasSubAt (pat : List Char) : List Char → Bool
  | [] => pat = []
  | c :: rest => pat.isPrefixOf (c :: rest) || hasSubAt pat rest

/-- Python `pat in s` on strings. -/
def containsSub (pat s : String) : Bool :=
  hasSubAt pat.toList s.toList

/-- ASCII uppercase letter, the character class `[A-Z]`. -/
def isUpperAlpha (c : Char) : Bool :=
  decide ('A' ≤ c) && decide (c ≤ 'Z')

/-- Leftmost match of the pattern `<tag>=([A-Z]\x7b3\x7d)` in a character
list, returning the captured three-letter group — the search
`re.search(r'f=([A-Z]\x7b3\x7d)', current_url)` of auto_scraper.py. -/
def searchCode (tag : Char) (l : List Char) : Option String :=
  match l with
  | [] => none
  | t :: rest =>
    let hit : Bool :=
      match rest with
      | e :: a :: b :: c :: _ =>
        t = tag && e = '=' && isUpperAlpha a && isUpperAlpha b && isUpperAlpha c
      | _ => false
    let code : String :=
      match rest with
      | _ :: a :: b :: c :: _ => String.mk [a, b, c]
      | _ => ""
    if hit then some code else searchCode tag rest

/-- Match of `d=(\d\x7b4\x7d-\d\x7b2\x7d-\d\x7b2\x7d)` anchored at the head
of the character list, returning the captured date string. -/
def matchDateAt (l : List Char) : Option String :=
  match l with
  | t :: e :: y1 :: y2 :: y3 :: y4 :: h1 :: m1 :: m2 :: h2 :: a1 :: a2 :: _ =>
    if t = 'd' && e = '=' && y1.isDigit && y2.isDigit && y3.isDigit && y4.isDigit
        && h1 = '-' && m1.isDigit && m2.isDigit && h2 = '-' && a1.isDigit && a2.isDigit then
      some (String.mk [y1, y2, y3, y4, '-', m1, m2, '-', a1, a2])
    else none
  | _ => none

/-- Leftmost match of `d=(\d\x7b4\x7d-\d\x7b2\x7d-\d\x7b2\x7d)` in a
character list. -/
def searchDate : List Char → Option String
  | [] => none
  | t :: rest =>
    match matchDateAt (t :: rest) with
    | some s => some s
    | none => searchDate rest

/-- Origin recovery from the URL (auto_scraper.py lines 24-26): only when
the literal substring `f=` occurs is the regex search attempted; an
unmatched search yields the UNKNOWN sentinel, while an absent substring
leaves the field as Python None. -/
def parseOrigin (url : String) : CellVal :=
  if containsSub "f=" url then
    match searchCode 'f' url.toList with
    | some c => .str c
    | none => .str "UNKNOWN"
  else .null

/-- Destination recovery from the URL (auto_scraper.py lines 28-30). -/
def parseDestination (url : String) : CellVal :=
  if containsSub "t=" url then
    match searchCode 't' url.toList with
    | some c => .str c
    | none => .str "UNKNOWN"
  else .null

/-- Date recovery from the URL (auto_scraper.py lines 32-34). -/
def parseDate (url : String) : CellVal :=
  if containsSub "d=" url then
    match searchDate url.toList with
    | some s => .str s
    | none => .str "UNKNOWN"
  else .null

/-- `extract_flight_data` (auto_scraper.py lines 10-108): URL-field
recovery, then the block check (short-circuit BLOCKED/BLOCKED), then the
cascade, the price loop and the no-availability override.  The whole body
sits in one try whose except returns Python None, modelled by the `fault`
flag. -/
def extract_flight_data (page : Page) (fault : Bool) (now : String) :
    Option FlightRecord :=
  if fault then none
  else
    let origin := parseOrigin page.url
    let destination := parseDestination page.url
    let date := parseDate page.url
    if page.errorMessages ≠ [] then
      some ⟨origin, destination, date, .str "BLOCKED", .str "BLOCKED", .str now⟩
    else
      let flights_found := (flightElements page).length
      let min_miles := listMin (parsePrices page.milesTexts)
      let fm : Nat × Option Nat :=
        if page.noFlightsIndicators ≠ [] ∧ flights_found = 0 then (0, none)
        else (flights_found, min_miles)
      some ⟨origin, destination, date, .num fm.1, milesCell fm.2, .str now⟩

/-- The fixed CSV column order. -/
def fieldnames : List String :=
  ["origin", "destination", "date", "flights_found", "min_miles", "scraped_at"]

/-- How the csv writer renders one cell: ints via str(), strings verbatim,
None as an empty cell. -/
def cellToCsv : CellVal → String
  | .num n => toString n
  | .str s => s
  | .null => ""

/-- One data row of the store, in the fixed column order. -/
def recordRow (r : FlightRecord) : List String :=
  [cellToCsv r.origin, cellToCsv r.destination, cellToCsv r.date,
   cellToCsv r.flights_found, cellToCsv r.min_miles, cellToCsv r.scraped_at]

/-- `save_to_csv` (auto_scraper.py lines 110-135).  The store is `none`
while the file does not exist and `some rows` afterwards.  The header is
written exactly when the open-for-read probe raised FileNotFoundError; the
record row is then appended to the existing content. -/
def save_to_csv (store : Option (List (List String))) (r : FlightRecord) :
    Option (List (List String)) :=
  let write_header := store.isNone
  let existing := store.getD []
  some (existing ++ (if write_header then [fieldnames] else []) ++ [recordRow r])

/-- How a run of scrape_united.py main (lines 158-231) ends.  The driver is
opened at line 182; the manual-login phase (lines 185-199: homepage
navigation, sleep, blocking input) runs next, and only then is the
try/finally entered (lines 201-231), whose finally calls driver.quit. -/
inductive BatchRunExit where
  | normal
  | exitDuringLogin
  | faultDuringScrape
  | interruptDuringScrape
deriving DecidableEq, Repr

/-- Number of driver.quit calls performed by scrape_united.py main for each
exit: the finally clause covers every exit from the try block, but the
manual-login phase precedes the try, so an interrupt or fault there ends
the process with the finally never entered. -/
def scrapeUnitedQuitCalls : BatchRunExit → Nat
  | .exitDuringLogin => 0
  | _ => 1

/-- How a run of auto_scraper.py main (lines 171-244) ends.  The driver is
opened at line 189; homepage navigation, the login prompt and the whole
monitoring loop all sit inside the try (lines 191-234), with except arms
for KeyboardInterrupt and Exception and a finally calling driver.quit.
The loop is infinite, so every ending is an interrupt or a fault. -/
inductive AutoRunExit where
  | interruptDuringLogin
  | faultDuringLogin
  | interruptDuringLoop
  | faultDuringLoop
deriving DecidableEq, Repr

/-- Number of driver.quit calls performed by auto_scraper.py main for each
exit: every listed exit leaves through the finally clause. -/
def autoScraperQuitCalls : AutoRunExit → Nat
  | _ => 1

/-- Python truthiness of the record dict: a dict with six keys is always
truthy, so the guard `if flight_data:` in scrape_united.py line 217 always
passes for a returned record. -/
def recordTruthy (_ : FlightRecord) : Bool := true

/-- Rows appended to the store by one batch-mode query attempt
(scrape_united.py lines 215-219): the record is written exactly when it is
truthy. -/
def batchRowsAppended (o d dt : String) (page : Page) (fault : Fault)
    (now : String) : Nat :=
  if recordTruthy (scrape_united_awards o d dt page fault now) then 1 else 0

/-- Outcome of one iteration of the interactive monitoring loop
(auto_scraper.py lines 211-234): either the five-minute poll timed out, or
a results page was detected and extraction ran on it (with `fault` marking
an extraction exception). -/
inductive InteractiveOutcome where
  | timeout
  | results (page : Page) (fault : Bool)

/-- Rows appended to the store by one interactive-loop iteration: a save
happens only when a results page was detected and extract_flight_data
returned a record (auto_scraper.py lines 211-234). -/
def interactiveRowsAppended (oc : InteractiveOutcome) (now : String) : Nat :=
  match oc with
  | .timeout => 0
  | .results page fault =>
    match extract_flight_data page fault now with
    | some _ => 1
    | none => 0

/-- A blocked page that also carries stray result markup, a price element
and a no-availability phrase. -/
def c1Page : Page :=
  ⟨["Please try again later"], ["stale-card"], [], [], ["12,500 miles"],
   ["No flights"], ""⟩

/-- A healthy, non-blocked page with one result card and one price. -/
def c3Page : Page :=
  ⟨[], ["result-card"], [], [], ["25,000 miles"], [], ""⟩

/-- A non-blocked page with zero result candidates in every tier, a
no-availability phrase, and a stray price element elsewhere on the page. -/
def c4Page : Page :=
  ⟨[], [], [], [], ["12,500 miles"], ["No flights available"], ""⟩

/-- A non-blocked page whose price elements carry the three reference
texts. -/
def c5Page : Page :=
  ⟨[], ["result-card"], [], [], ["12,500 miles", "8,000", "award n/a"], [], ""⟩

/-- A non-blocked page whose navigation URL carries none of the f=/t=/d=
markers. -/
def c8Page : Page :=
  ⟨[], [], [], [], [], [], "https://www.united.com"⟩

/-- A non-blocked page with one result card and a price element whose only
digit is a zero. -/
def c9Page : Page :=
  ⟨[], ["result-card"], [], [], ["0 miles"], [], ""⟩

/-- The min_miles cell is never the integer zero: the truthiness test sends
both None and 0 to the N/A sentinel. -/
theorem milesCell_ne_zero (o : Option Nat) : milesCell o ≠ CellVal.num 0 := by
  cases o with
  | none => simp [milesCell]
  | some m =>
    by_cases h : m = 0 <;> simp [milesCell, h]

/-- Claim C1: a page carrying a block-indicator phrase yields BLOCKED for
both flights_found and min_miles in both entry points, short-circuiting
before the cascade, the price probe and the no-availability check,
regardless of what else the page contains (and regardless of any fault
raised after the block check). -/
theorem c1_block_dominates (o d dt now : String) (page : Page) (fault : Fault)
    (hf : fault ≠ Fault.outer) (hb : page.errorMessages ≠ []) :
    scrape_united_awards o d dt page fault now =
      ⟨.str o, .str d, .str dt, .str "BLOCKED", .str "BLOCKED", .str now⟩ ∧
    extract_flight_data page false now =
      some ⟨parseOrigin page.url, parseDestination page.url, parseDate page.url,
        .str "BLOCKED", .str "BLOCKED", .str now⟩ := by
  constructor
  · simp [scrape_united_awards, hf, hb]
  · simp [extract_flight_data, hb]

/-- Witness for C1: a concrete blocked page that also contains a stale
result card, a price element and a no-availability phrase still comes back
BLOCKED/BLOCKED from both extraction paths. -/
theorem c1_block_dominates_witness :
    scrape_united_awards "ATL" "LAX" "2026-01-01" c1Page .ok "T" =
      ⟨.str "ATL", .str "LAX", .str "2026-01-01", .str "BLOCKED", .str "BLOCKED", .str "T"⟩ ∧
    extract_flight_data c1Page false "T" =
      some ⟨parseOrigin c1Page.url, parseDestination c1Page.url, parseDate c1Page.url,
        .str "BLOCKED", .str "BLOCKED", .str "T"⟩ :=
  c1_block_dominates "ATL" "LAX" "2026-01-01" "T" c1Page .ok (by decide) (by decide)

/-- Counterexample to C3 as stated: an unexpected exception raised inside
the detail-extraction block (before result discovery) of
scrape_united_awards is caught by the inner handler and yields a record
with flights_found 0 and min_miles N/A — not the ERROR sentinel. -/
theorem c3_counterexample :
    scrape_united_awards "ATL" "LAX" "2026-01-01" c3Page .innerBeforeResults "T" =
      ⟨.str "ATL", .str "LAX", .str "2026-01-01", .num 0, .str "N/A", .str "T"⟩ ∧
    (scrape_united_awards "ATL" "LAX" "2026-01-01" c3Page .innerBeforeResults "T").flights_found ≠
      CellVal.str "ERROR" ∧
    (scrape_united_awards "ATL" "LAX" "2026-01-01" c3Page .innerBeforeResults "T").min_miles ≠
      CellVal.str "ERROR" := by
  refine ⟨by decide, by decide, by decide⟩

/-- Claim C3 as amended: scrape_united_awards never propagates a fault, but
only faults raised outside the inner detail-extraction block produce the
ERROR/ERROR sentinel record; a fault inside the detail-extraction block is
caught separately and produces a normal record built from the values
computed before the fault (flights_found 0 and min_miles N/A when the fault
precedes result discovery; the cascade count and N/A when it precedes the
price probe). -/
theorem c3_error_sentinel_scope (o d dt now : String) (page : Page)
    (hb : page.errorMessages = []) :
    scrape_united_awards o d dt page .outer now =
      ⟨.str o, .str d, .str dt, .str "ERROR", .str "ERROR", .str now⟩ ∧
    scrape_united_awards o d dt page .innerBeforeResults now =
      ⟨.str o, .str d, .str dt, .num 0, .str "N/A", .str now⟩ ∧
    scrape_united_awards o d dt page .innerBeforePrices now =
      ⟨.str o, .str d, .str dt, .num (flightElements page).length, .str "N/A", .str now⟩ := by
  refine ⟨by simp [scrape_united_awards], ?_, ?_⟩
  · simp [scrape_united_awards, hb, milesCell]
  · simp [scrape_united_awards, hb, milesCell]

/-- Witness for the amended C3 at a concrete healthy page. -/
theorem c3_error_sentinel_scope_witness :
    scrape_united_awards "ATL" "LAX" "2026-01-01" c3Page .outer "T" =
      ⟨.str "ATL", .str "LAX", .str "2026-01-01", .str "ERROR", .str "ERROR", .str "T"⟩ ∧
    scrape_united_awards "ATL" "LAX" "2026-01-01" c3Page .innerBeforeResults "T" =
      ⟨.str "ATL", .str "LAX", .str "2026-01-01", .num 0, .str "N/A", .str "T"⟩ ∧
    scrape_united_awards "ATL" "LAX" "2026-01-01" c3Page .innerBeforePrices "T" =
      ⟨.str "ATL", .str "LAX", .str "2026-01-01", .num (flightElements c3Page).length,
        .str "N/A", .str "T"⟩ :=
  c3_error_sentinel_scope "ATL" "LAX" "2026-01-01" "T" c3Page rfl

/-- Claim C4: on a non-blocked page where a no-availability phrase matched
and every selector tier matched zero result candidates, both extraction
paths force flights_found to 0 and min_miles to N/A, overriding any parsed
price values. -/
theorem c4_no_availability_override (o d dt now : String) (page : Page)
    (hb : page.errorMessages = []) (hn : page.noFlightsIndicators ≠ [])
    (hz : flightElements page = []) :
    (scrape_united_awards o d dt page .ok now).flights_found = CellVal.num 0 ∧
    (scrape_united_awards o d dt page .ok now).min_miles = CellVal.str "N/A" ∧
    (extract_flight_data page false now).map FlightRecord.flights_found =
      some (CellVal.num 0) ∧
    (extract_flight_data page false now).map FlightRecord.min_miles =
      some (CellVal.str "N/A") := by
  refine ⟨?_, ?_, ?_, ?_⟩ <;>
    simp [scrape_united_awards, extract_flight_data, hb, hn, hz, milesCell]

/-- Witness for C4: a concrete page with a no-availability phrase, empty
selector tiers and a stray parseable price element still yields 0 and N/A
from both extraction paths. -/
theorem c4_no_availability_override_witness :
    (scrape_united_awards "ATL" "LAX" "2026-01-01" c4Page .ok "T").flights_found =
      CellVal.num 0 ∧
    (scrape_united_awards "ATL" "LAX" "2026-01-01" c4Page .ok "T").min_miles =
      CellVal.str "N/A" ∧
    (extract_flight_data c4Page false "T").map FlightRecord.flights_found =
      some (CellVal.num 0) ∧
    (extract_flight_data c4Page false "T").map FlightRecord.min_miles =
      some (CellVal.str "N/A") :=
  c4_no_availability_override "ATL" "LAX" "2026-01-01" "T" c4Page rfl
    (by decide) (by decide)

/-- Claim C5: each price text is reduced to its digit characters and parsed
exactly when some digit remains; the reference texts parse to 12500 and
8000 with the digit-free text contributing nothing, and the minimum 8000 is
what the full extraction records as min_miles. -/
theorem c5_price_parsing :
    parsePrices ["12,500 miles", "8,000", "award n/a"] = [12500, 8000] ∧
    listMin (parsePrices ["12,500 miles", "8,000", "award n/a"]) = some 8000 ∧
    (∀ t : String, (parsePrice t).isSome ↔ t.toList.filter Char.isDigit ≠ []) ∧
    (scrape_united_awards "ATL" "LAX" "2026-01-01" c5Page .ok "T").min_miles =
      CellVal.num 8000 := by
  refine ⟨by decide, by decide, ?_, by decide⟩
  intro t
  by_cases h : t.toList.filter Char.isDigit = [] <;> simp [parsePrice, h]

/-- Claim C2, evaluated on the code: in scrape_united.py the manual-login
phase precedes the try/finally, so an interrupt or fault there ends the run
with zero driver.quit calls, while every exit from the guarded scraping
block performs exactly one; in auto_scraper.py every exit performs exactly
one. -/
theorem c2_teardown_evaluation :
    scrapeUnitedQuitCalls .exitDuringLogin = 0 ∧
    scrapeUnitedQuitCalls .normal = 1 ∧
    scrapeUnitedQuitCalls .faultDuringScrape = 1 ∧
    scrapeUnitedQuitCalls .interruptDuringScrape = 1 ∧
    (∀ e : AutoRunExit, autoScraperQuitCalls e = 1) := by
  refine ⟨rfl, rfl, rfl, rfl, ?_⟩
  intro e
  cases e <;> rfl

/-- Claim C6: two appends to a non-existent store produce one header row
followed by the two data rows in order; a third append to the now-existing
store adds exactly one data row and no header; an append to any existing
store preserves every existing row as a prefix. -/
theorem c6_header_once :
    (∀ r1 r2 : FlightRecord,
      save_to_csv (save_to_csv none r1) r2 =
        some [fieldnames, recordRow r1, recordRow r2]) ∧
    (∀ r1 r2 r3 : FlightRecord,
      save_to_csv (save_to_csv (save_to_csv none r1) r2) r3 =
        some [fieldnames, recordRow r1, recordRow r2, recordRow r3]) ∧
    (∀ (rows : List (List String)) (r : FlightRecord),
      save_to_csv (some rows) r = some (rows ++ [recordRow r])) := by
  refine ⟨?_, ?_, ?_⟩ <;> intros <;> simp [save_to_csv]

/-- Counterexample to C7 as stated: an interactive-mode iteration that
times out waiting for a results page appends no row at all to the store. -/
theorem c7_counterexample :
    interactiveRowsAppended InteractiveOutcome.timeout "T" = 0 ∧
    interactiveRowsAppended InteractiveOutcome.timeout "T" ≠ 1 := by
  refine ⟨rfl, by decide⟩

/-- Claim C7 as amended: in batch mode every query attempt appends exactly
one row (blocked and error outcomes included, since scrape_united_awards
always returns a truthy record); in interactive mode an iteration whose
extraction returns a record appends exactly one row, but a poll timeout or
an extraction fault (extract_flight_data returning None) appends none. -/
theorem c7_rows_per_attempt :
    (∀ (o d dt : String) (page : Page) (fault : Fault) (now : String),
      batchRowsAppended o d dt page fault now = 1) ∧
    (∀ (page : Page) (now : String),
      interactiveRowsAppended (.results page false) now = 1) ∧
    (∀ now : String, interactiveRowsAppended .timeout now = 0) ∧
    (∀ (page : Page) (now : String),
      interactiveRowsAppended (.results page true) now = 0) := by
  refine ⟨?_, ?_, ?_, ?_⟩
  · intro o d dt page fault now
    simp [batchRowsAppended, recordTruthy]
  · intro page now
    by_cases hb : page.errorMessages = [] <;>
      simp [interactiveRowsAppended, extract_flight_data, hb]
  · intro now
    rfl
  · intro page now
    simp [interactiveRowsAppended, extract_flight_data]

/-- Counterexample to C8 as stated: a navigation URL carrying none of the
three marker substrings yields Python None (an empty cell) for every field,
not the UNKNOWN sentinel. -/
theorem c8_counterexample :
    extract_flight_data c8Page false "T" =
      some ⟨CellVal.null, CellVal.null, CellVal.null, .num 0, .str "N/A", .str "T"⟩ ∧
    CellVal.null ≠ CellVal.str "UNKNOWN" := by
  refine ⟨by decide, by decide⟩

/-- Claim C8 as amended: origin, destination and date are recovered from
the URL via the `f=`, `t=`, `d=` conventions; the UNKNOWN sentinel is
produced only when the marker substring is present but the full pattern
fails to match, while a URL lacking the marker substring altogether leaves
the field as Python None. -/
theorem c8_url_field_recovery (url now : String) (page : Page)
    (hf : containsSub "f=" url = false) (ht : containsSub "t=" url = false)
    (hd : containsSub "d=" url = false) (hu : page.url = url) :
    parseOrigin url = CellVal.null ∧
    parseDestination url = CellVal.null ∧
    parseDate url = CellVal.null ∧
    (extract_flight_data page false now).map FlightRecord.origin = some CellVal.null ∧
    (extract_flight_data page false now).map FlightRecord.destination = some CellVal.null ∧
    (extract_flight_data page false now).map FlightRecord.date = some CellVal.null ∧
    parseOrigin "f=LAX&t=SFO&d=2026-01-01" = CellVal.str "LAX" ∧
    parseDestination "f=LAX&t=SFO&d=2026-01-01" = CellVal.str "SFO" ∧
    parseDate "f=LAX&t=SFO&d=2026-01-01" = CellVal.str "2026-01-01" ∧
    parseOrigin "f=lax&t=sf&d=Jan" = CellVal.str "UNKNOWN" ∧
    parseDestination "f=lax&t=sf&d=Jan" = CellVal.str "UNKNOWN" ∧
    parseDate "f=lax&t=sf&d=Jan" = CellVal.str "UNKNOWN" := by
  subst hu
  have ho : parseOrigin page.url = CellVal.null := by simp [parseOrigin, hf]
  have ht2 : parseDestination page.url = CellVal.null := by simp [parseDestination, ht]
  have hd2 : parseDate page.url = CellVal.null := by simp [parseDate, hd]
  refine ⟨ho, ht2, hd2, ?_, ?_, ?_,
    by decide, by decide, by decide, by decide, by decide, by decide⟩ <;>
    by_cases hb : page.errorMessages = [] <;>
      simp [extract_flight_data, hb, ho, ht2, hd2]

/-- Witness for the amended C8 at the concrete marker-free URL. -/
theorem c8_url_field_recovery_witness :
    parseOrigin "https://www.united.com" = CellVal.null ∧
    parseDestination "https://www.united.com" = CellVal.null ∧
    parseDate "https://www.united.com" = CellVal.null ∧
    (extract_flight_data c8Page false "T").map FlightRecord.origin = some CellVal.null ∧
    (extract_flight_data c8Page false "T").map FlightRecord.destination = some CellVal.null ∧
    (extract_flight_data c8Page false "T").map FlightRecord.date = some CellVal.null ∧
    parseOrigin "f=LAX&t=SFO&d=2026-01-01" = CellVal.str "LAX" ∧
    parseDestination "f=LAX&t=SFO&d=2026-01-01" = CellVal.str "SFO" ∧
    parseDate "f=LAX&t=SFO&d=2026-01-01" = CellVal.str "2026-01-01" ∧
    parseOrigin "f=lax&t=sf&d=Jan" = CellVal.str "UNKNOWN" ∧
    parseDestination "f=lax&t=sf&d=Jan" = CellVal.str "UNKNOWN" ∧
    parseDate "f=lax&t=sf&d=Jan" = CellVal.str "UNKNOWN" :=
  c8_url_field_recovery "https://www.united.com" "T" c8Page
    (by decide) (by decide) (by decide) rfl

/-- Claim C9: no extraction outcome ever records min_miles as the integer
0 — the truthiness test `min_miles if min_miles else` sends a parsed
minimum of 0 to the N/A sentinel; the concrete page whose only price text
is "0 miles" parses to minimum 0 and is recorded as N/A. -/
theorem c9_zero_min_is_na :
    (∀ (o d dt : String) (page : Page) (fault : Fault) (now : String),
      (scrape_united_awards o d dt page fault now).min_miles ≠ CellVal.num 0) ∧
    (∀ (page : Page) (fault : Bool) (now : String),
      (extract_flight_data page fault now).elim True
        (fun r => r.min_miles ≠ CellVal.num 0)) ∧
    listMin (parsePrices c9Page.milesTexts) = some 0 ∧
    (scrape_united_awards "ATL" "LAX" "2026-01-01" c9Page .ok "T").min_miles =
      CellVal.str "N/A" := by
  refine ⟨?_, ?_, by decide, by decide⟩
  · intro o d dt page fault now
    by_cases hf : fault = Fault.outer
    · simp [scrape_united_awards, hf]
    · by_cases hb : page.errorMessages = []
      · have hnn : ¬(page.errorMessages ≠ []) := fun hcon => hcon hb
        simp only [scrape_united_awards, if_neg hf, if_neg hnn]
        exact milesCell_ne_zero _
      · simp [scrape_united_awards, hf, hb]
  · intro page fault now
    cases fault with
    | true => simp [extract_flight_data]
    | false =>
      by_cases hb : page.errorMessages = []
      · have hnn : ¬(page.errorMessages ≠ []) := fun hcon => hcon hb
        simp only [extract_flight_data, if_neg Bool.false_ne_true, if_neg hnn,
          Option.elim]
        exact milesCell_ne_zero _
      · simp [extract_flight_data, hb]

/-- Claim C10: price parsing concatenates every digit of the element text
into one integer — the mixed text parses to 112500, not 12500 — and each
text contributes exactly one parsed value precisely when it contains a
digit. -/
theorem c10_digit_concatenation :
    parsePrice "1 stop 12,500 miles" = some 112500 ∧
    parsePrice "1 stop 12,500 miles" ≠ some 12500 ∧
    (∀ l : List String,
      (parsePrices l).length =
        (l.filter (fun t => t.toList.any Char.isDigit)).length) := by
  refine ⟨by decide, by decide, ?_⟩
  intro l
  induction l with
  | nil => rfl
  | cons t rest ih =>
    by_cases h : t.toList.filter Char.isDigit = []
    · have hp : parsePrice t = none := by
        simp only [parsePrice]
        rw [if_pos h]
      have ha : t.toList.any Char.isDigit = false := by
        simp only [List.any_eq_false]
        intro x hx
        by_contra hcon
        have hxmem : x ∈ t.toList.filter Char.isDigit :=
          List.mem_filter.mpr ⟨hx, by simpa using hcon⟩
        rw [h] at hxmem
        exact absurd hxmem (List.not_mem_nil x)
      have hfc : List.filter (fun s => s.toList.any Char.isDigit) (t :: rest)
          = List.filter (fun s => s.toList.any Char.isDigit) rest := by
        simp only [List.filter_cons, ha]
        simp
      simp only [parsePrices, List.filterMap_cons, hp, hfc] at ih ⊢
      exact ih
    · have hp : parsePrice t =
          some ((t.toList.filter Char.isDigit).foldl
            (fun acc c => acc * 10 + (c.toNat - 48)) 0) := by
        simp only [parsePrice]
        rw [if_neg h]
      obtain ⟨c, hc⟩ := List.exists_mem_of_ne_nil _ h
      have hc1 := (List.mem_filter.mp hc).1
      have hc2 := (List.mem_filter.mp hc).2
      have ha : t.toList.any Char.isDigit = true := by
        simp only [List.any_eq_true]
        exact ⟨c, hc1, hc2⟩
      have hfc : List.filter (fun s => s.toList.any Char.isDigit) (t :: rest)
          = t :: List.filter (fun s => s.toList.any Char.isDigit) rest := by
        simp only [List.filter_cons, ha]
        simp
      simp only [parsePrices, List.filterMap_cons, hp, hfc, List.length_cons] at ih ⊢
      omega

end FlightAward
